import Mathlib

/-!
Shallow embedding of `homeassistant/components/jellyfin/media_source.py`:
the Jellyfin media-source tree builder and stream resolver.

Catalog items are loosely-typed mappings in the source; they are embedded as a
record of optional fields.  Direct dictionary indexing (`item[key]`) on an
optional field is embedded as a `match` that produces `JError.keyError` when
the field is absent; `.get(key)` is embedded as plain `Option` access.
The external Jellyfin client is embedded as an oracle structure of pure
functions, and the `async`/executor plumbing (which only sequences blocking
calls) as plain sequential code in the `Except JError` monad.
-/

namespace JellyfinMS

/-! Constants from `homeassistant/components/jellyfin/const.py` (that file is
not under `src/`; the values follow the spec's data model: supported
collection types are Music/Movies/TVShows, playable leaf item types are
Audio/Movie/Episode). -/

def ITEM_TYPE_ALBUM : String := "MusicAlbum"

def ITEM_TYPE_ARTIST : String := "MusicArtist"

def ITEM_TYPE_AUDIO : String := "Audio"

def ITEM_TYPE_EPISODE : String := "Episode"

def ITEM_TYPE_LIBRARY : String := "CollectionFolder"

def ITEM_TYPE_MOVIE : String := "Movie"

def ITEM_TYPE_SEASON : String := "Season"

def ITEM_TYPE_SERIES : String := "Series"

def COLLECTION_TYPE_MOVIES : String := "movies"

def COLLECTION_TYPE_MUSIC : String := "music"

def COLLECTION_TYPE_TVSHOWS : String := "tvshows"

/-- Modelled from the spec: the supported set of library collection types,
`{Music, Movies, TVShows}` (`SUPPORTED_COLLECTION_TYPES` in `const.py`). -/
def SUPPORTED_COLLECTION_TYPES : List String :=
  [COLLECTION_TYPE_MUSIC, COLLECTION_TYPE_MOVIES, COLLECTION_TYPE_TVSHOWS]

def MEDIA_TYPE_AUDIO : String := "Audio"

def MEDIA_TYPE_VIDEO : String := "Video"

def MAX_IMAGE_WIDTH : Nat := 600

/-- Media classes used by the builders (`MediaClass` enum of the media player
component). -/
inductive MediaClass where
  | directory
  | artist
  | album
  | track
  | movie
  | tvShow
  | season
  | episode
deriving Repr, DecidableEq

/-- One entry of an item's `MediaSources` list; only its optional `Path` key
is read by this module. -/
structure MediaSourceRec where
  path : Option String
deriving Repr, DecidableEq

/-- A catalog item as consumed by this module.  Optional fields model keys
that may be absent from the raw mapping (`name`, `collectionType`,
`indexNumber`).  `mediaType` models the always-present `MediaType` key whose
value may be null (`none` = unset).  `imageTags` is the list of present image
kinds.  `mediaSources` is the `MediaSources` list, `[]` when absent or
empty (both are falsy for the `.get` check in `_media_mime_type`). -/
structure Item where
  id : String
  name : Option String
  itemType : String
  collectionType : Option String
  indexNumber : Option Int
  mediaType : Option String
  imageTags : List String
  mediaSources : List MediaSourceRec
deriving Repr, DecidableEq

/-- Errors surfaced by the embedded operations: Python `KeyError` on direct
indexing, `BrowseError`, `Unresolvable`, a failed `assert`, and an error
propagated from the external client (unknown item id). -/
inductive JError where
  | keyError (key : String)
  | browseError (msg : String)
  | unresolvable (msg : String)
  | assertionError
  | externalError
deriving Repr, DecidableEq

/-- The external Jellyfin client, embedded as an oracle of pure functions:
`get_media_folders`, `user_items` (children of a parent filtered by item
type), `get_item` (`none` = unknown id, the external error case),
`audio_url`, `video_url` and `artwork`. -/
structure Client where
  media_folders : List Item
  user_items : String → String → List Item
  get_item : String → Option Item
  audio_url : String → String
  video_url : String → String
  artwork : String → String → Nat → String

/-- A `BrowseMediaSource` node.  `media_content_type` is `none` for the
`MEDIA_TYPE_NONE` sentinel and `some mime` otherwise; `children` is `none`
when children were not populated and `some list` when they were. -/
inductive BMS where
  | mk
    (identifier : Option String)
    (media_class : MediaClass)
    (media_content_type : Option String)
    (title : String)
    (can_play : Bool)
    (can_expand : Bool)
    (thumbnail : Option String)
    (children_media_class : Option MediaClass)
    (children : Option (List BMS))

def BMS.identifier : BMS → Option String
  | .mk i _ _ _ _ _ _ _ _ => i

def BMS.media_class : BMS → MediaClass
  | .mk _ m _ _ _ _ _ _ _ => m

def BMS.media_content_type : BMS → Option String
  | .mk _ _ t _ _ _ _ _ _ => t

def BMS.title : BMS → String
  | .mk _ _ _ t _ _ _ _ _ => t

def BMS.can_play : BMS → Bool
  | .mk _ _ _ _ p _ _ _ _ => p

def BMS.can_expand : BMS → Bool
  | .mk _ _ _ _ _ e _ _ _ => e

def BMS.thumbnail : BMS → Option String
  | .mk _ _ _ _ _ _ t _ _ => t

def BMS.children_media_class : BMS → Option MediaClass
  | .mk _ _ _ _ _ _ _ c _ => c

def BMS.children : BMS → Option (List BMS)
  | .mk _ _ _ _ _ _ _ _ c => c

/-! The Mime Resolver. -/

/-- Embedding of `_media_mime_type`, parameterized by the external
filename-to-MIME mapping `guess` (Python's `mimetypes.guess_type`): `none`
when `MediaSources` is absent or empty, `none` when the first media source
has no `Path`, otherwise `guess path`. -/
def media_mime_type (guess : String → Option String) (media_item : Item) : Option String :=
  match media_item.mediaSources with
  | [] => none
  | media_source :: _ =>
    match media_source.path with
    | none => none
    | some path => guess path

/-- Characters of the path's extension, scanned over the reversed character
list: the characters strictly after (in reversed order) the last dot, or
`none` when the path has no dot. -/
def extRev : List Char → Option (List Char)
  | [] => none
  | c :: rest => if c = '.' then some [] else (extRev rest).map (fun e => c :: e)

/-- Modelled from the spec: a representative fragment of the standard
filename-extension-to-MIME-type table used by Python's `mimetypes` module,
which is an external collaborator not under `src/`. -/
def mimeTable : List (String × String) :=
  [("mp3", "audio/mpeg"), ("mp4", "video/mp4"), ("m4a", "audio/mp4"),
   ("ogg", "audio/ogg"), ("flac", "audio/x-flac"), ("avi", "video/x-msvideo"),
   ("wav", "audio/x-wav")]

/-- Lower-case an ASCII character (the extension is lower-cased before the
table lookup). -/
def lowerChar (c : Char) : Char :=
  if c.toNat ≥ 65 ∧ c.toNat ≤ 90 then Char.ofNat (c.toNat + 32) else c

/-- Modelled from the spec: the standard filename-to-MIME-type mapping
(`mimetypes.guess_type`): look the path's lower-cased extension up in the
standard table, `none` when no mapping matches. -/
def guessTypeStd (path : String) : Option String :=
  match extRev path.data.reverse with
  | none => none
  | some e => mimeTable.lookup (String.mk (e.reverse.map lowerChar))

/-! The missing-field-tolerant sort key.  Python sorts by the tuple
`(key not in item, item.get(key))`: items with the field first, ordered by
value ascending; items without the field last, mutually tied.  The embedding
uses Mathlib's stable `insertionSort` with the corresponding total
preorder — Python's `sorted` is also stable, and any two stable sorts with
respect to the same total preorder agree. -/

/-- Lexicographic comparison of character lists by code point — Python's
string comparison, used for the `Name` sort keys. -/
def charsLe : List Char → List Char → Bool
  | [], _ => true
  | _ :: _, [] => false
  | x :: xs, y :: ys =>
    if x.toNat < y.toNat then true
    else if y.toNat < x.toNat then false
    else charsLe xs ys

def strLe (a b : String) : Bool := charsLe a.data b.data

def intLe (a b : Int) : Bool := decide (a ≤ b)

/-- Boolean comparison corresponding to Python's `(key not in k, k.get(key))`
tuple key: present-before-absent, then value ascending, absent tied. -/
def keyLEb {κ : Type} (leb : κ → κ → Bool) (key : Item → Option κ) (a b : Item) : Bool :=
  match key a, key b with
  | some x, some y => leb x y
  | some _, none => true
  | none, some _ => false
  | none, none => true

def keyLE {κ : Type} (leb : κ → κ → Bool) (key : Item → Option κ) : Item → Item → Prop :=
  fun a b => keyLEb leb key a b = true

instance {κ : Type} (leb : κ → κ → Bool) (key : Item → Option κ) :
    DecidableRel (keyLE leb key) :=
  fun a b => inferInstanceAs (Decidable (keyLEb leb key a b = true))

/-- Embedding of `sorted(items, key=lambda k: (key not in k, k.get(key)))`:
a stable sort by the missing-field-tolerant key.  Python's `sorted` is a
stable sort with respect to this total preorder, and stable sorts with
respect to the same total preorder are unique, so `insertionSort` (stable)
gives the same list. -/
def sortItems {κ : Type} (leb : κ → κ → Bool) (key : Item → Option κ) (l : List Item) :
    List Item :=
  l.insertionSort (keyLE leb key)

/-- Sort by the `Name` key (artists, albums, movies, series). -/
def sortByName (l : List Item) : List Item :=
  sortItems strLe (fun i => i.name) l

/-- Sort by the `IndexNumber` key (tracks, seasons, episodes). -/
def sortByIndex (l : List Item) : List Item :=
  sortItems intLe (fun i => i.indexNumber) l

/-! The Item Fetcher and thumbnail helper. -/

/-- Embedding of `_get_children`: the recursive children query delegated to
the external client.  The `Fields=MediaSources` request parameter for
playable item types only affects which keys the server includes in its
response and is absorbed into the oracle. -/
def get_children (c : Client) (parent_id item_type : String) : List Item :=
  c.user_items parent_id item_type

/-- Embedding of `_get_libraries`: all media folders carrying a
`CollectionType` key whose value is in the supported set. -/
def get_libraries (c : Client) : List Item :=
  c.media_folders.filter (fun library =>
    match library.collectionType with
    | some t => SUPPORTED_COLLECTION_TYPES.contains t
    | none => false)

/-- Embedding of `_get_thumbnail_url`: an artwork URL when the item's
`ImageTags` contain the `Primary` kind, `none` otherwise. -/
def get_thumbnail_url (c : Client) (media_item : Item) : Option String :=
  if media_item.imageTags.contains "Primary" then
    some (c.artwork media_item.id "Primary" MAX_IMAGE_WIDTH)
  else none

/-- Sequential fallible construction of a children list (the list
comprehensions / loops over fallible node constructors): the first error
aborts the whole list. -/
def buildList (f : Item → Except JError BMS) : List Item → Except JError (List BMS)
  | [] => .ok []
  | i :: is =>
    match f i with
    | .error e => .error e
    | .ok n =>
      match buildList f is with
      | .error e => .error e
      | .ok ns => .ok (n :: ns)

/-! The Tree Builder. -/

/-- Embedding of `_build_track`: a playable leaf node whose content type is
the Mime Resolver result.  Reads `Name` by direct indexing. -/
def build_track (guess : String → Option String) (c : Client) (track : Item) :
    Except JError BMS :=
  match track.name with
  | none => .error (.keyError "Name")
  | some track_title =>
    .ok (BMS.mk (some track.id) .track (media_mime_type guess track) track_title
      true false (get_thumbnail_url c track) none none)

/-- Embedding of `_build_tracks`: fetch `Audio` children, sort by
`IndexNumber`, keep only items with a derivable MIME type, build each. -/
def build_tracks (guess : String → Option String) (c : Client) (album_id : String) :
    Except JError (List BMS) :=
  let tracks := sortByIndex (get_children c album_id ITEM_TYPE_AUDIO)
  buildList (build_track guess c)
    (tracks.filter (fun t => (media_mime_type guess t).isSome))

/-- Embedding of `_build_album`: a non-playable expandable `Album` node;
with children requested, its children are the album's tracks. -/
def build_album (guess : String → Option String) (c : Client) (album : Item)
    (include_children : Bool) : Except JError BMS :=
  match album.name with
  | none => .error (.keyError "Name")
  | some album_title =>
    let thumb := get_thumbnail_url c album
    if include_children then
      match build_tracks guess c album.id with
      | .error e => .error e
      | .ok children =>
        .ok (BMS.mk (some album.id) .album none album_title false true thumb
          (some .track) (some children))
    else
      .ok (BMS.mk (some album.id) .album none album_title false true thumb none none)

/-- Embedding of `_build_albums`: fetch `MusicAlbum` children of the parent,
sort by `Name`, build each without children. -/
def build_albums (guess : String → Option String) (c : Client) (parent_id : String) :
    Except JError (List BMS) :=
  buildList (fun a => build_album guess c a false)
    (sortByName (get_children c parent_id ITEM_TYPE_ALBUM))

/-- Embedding of `_build_artist`: a non-playable expandable `Artist` node;
with children requested, its children are the artist's albums. -/
def build_artist (guess : String → Option String) (c : Client) (artist : Item)
    (include_children : Bool) : Except JError BMS :=
  match artist.name with
  | none => .error (.keyError "Name")
  | some artist_name =>
    let thumb := get_thumbnail_url c artist
    if include_children then
      match build_albums guess c artist.id with
      | .error e => .error e
      | .ok children =>
        .ok (BMS.mk (some artist.id) .artist none artist_name false true thumb
          (some .album) (some children))
    else
      .ok (BMS.mk (some artist.id) .artist none artist_name false true thumb none none)

/-- Embedding of `_build_artists`: fetch `MusicArtist` children of the
library, sort by `Name`, build each without children. -/
def build_artists (guess : String → Option String) (c : Client) (library_id : String) :
    Except JError (List BMS) :=
  buildList (fun a => build_artist guess c a false)
    (sortByName (get_children c library_id ITEM_TYPE_ARTIST))

/-- Embedding of `_build_music_library`: a `Directory` node; with children
requested, children are the library's artists, or — when the built artist
list is empty — the library's albums with `Album` as children media class. -/
def build_music_library (guess : String → Option String) (c : Client) (library : Item)
    (include_children : Bool) : Except JError BMS :=
  match library.name with
  | none => .error (.keyError "Name")
  | some library_name =>
    if include_children then
      match build_artists guess c library.id with
      | .error e => .error e
      | .ok artists =>
        if artists.isEmpty then
          match build_albums guess c library.id with
          | .error e => .error e
          | .ok albums =>
            .ok (BMS.mk (some library.id) .directory none library_name false true none
              (some .album) (some albums))
        else
          .ok (BMS.mk (some library.id) .directory none library_name false true none
            (some .artist) (some artists))
    else
      .ok (BMS.mk (some library.id) .directory none library_name false true none none none)

/-- Embedding of `_build_movie`: a playable leaf `Movie` node whose content
type is the Mime Resolver result. -/
def build_movie (guess : String → Option String) (c : Client) (movie : Item) :
    Except JError BMS :=
  match movie.name with
  | none => .error (.keyError "Name")
  | some movie_title =>
    .ok (BMS.mk (some movie.id) .movie (media_mime_type guess movie) movie_title
      true false (get_thumbnail_url c movie) none none)

/-- Embedding of `_build_movies`: fetch `Movie` children, sort by `Name`,
keep only items with a derivable MIME type, build each. -/
def build_movies (guess : String → Option String) (c : Client) (library_id : String) :
    Except JError (List BMS) :=
  let movies := sortByName (get_children c library_id ITEM_TYPE_MOVIE)
  buildList (build_movie guess c)
    (movies.filter (fun m => (media_mime_type guess m).isSome))

/-- Embedding of `_build_movie_library`: a `Directory` node; with children
requested, children are the library's movies. -/
def build_movie_library (guess : String → Option String) (c : Client) (library : Item)
    (include_children : Bool) : Except JError BMS :=
  match library.name with
  | none => .error (.keyError "Name")
  | some library_name =>
    if include_children then
      match build_movies guess c library.id with
      | .error e => .error e
      | .ok children =>
        .ok (BMS.mk (some library.id) .directory none library_name false true none
          (some .movie) (some children))
    else
      .ok (BMS.mk (some library.id) .directory none library_name false true none none none)

/-- Embedding of `_build_episode`: a playable leaf `Episode` node whose
content type is the Mime Resolver result. -/
def build_episode (guess : String → Option String) (c : Client) (episode : Item) :
    Except JError BMS :=
  match episode.name with
  | none => .error (.keyError "Name")
  | some episode_title =>
    .ok (BMS.mk (some episode.id) .episode (media_mime_type guess episode) episode_title
      true false (get_thumbnail_url c episode) none none)

/-- Embedding of `_build_episodes`: fetch `Episode` children, sort by
`IndexNumber`, keep only items with a derivable MIME type, build each. -/
def build_episodes (guess : String → Option String) (c : Client) (season_id : String) :
    Except JError (List BMS) :=
  let episodes := sortByIndex (get_children c season_id ITEM_TYPE_EPISODE)
  buildList (build_episode guess c)
    (episodes.filter (fun e => (media_mime_type guess e).isSome))

/-- Embedding of `_build_season`: a non-playable expandable node — its own
media class is `TvShow` in the source, not `Season`; with children
requested, children are the season's episodes with `Episode` children media
class. -/
def build_season (guess : String → Option String) (c : Client) (season : Item)
    (include_children : Bool) : Except JError BMS :=
  match season.name with
  | none => .error (.keyError "Name")
  | some season_title =>
    let thumb := get_thumbnail_url c season
    if include_children then
      match build_episodes guess c season.id with
      | .error e => .error e
      | .ok children =>
        .ok (BMS.mk (some season.id) .tvShow none season_title false true thumb
          (some .episode) (some children))
    else
      .ok (BMS.mk (some season.id) .tvShow none season_title false true thumb none none)

/-- Embedding of `_build_seasons`: fetch `Season` children, sort by
`IndexNumber`, build each without children. -/
def build_seasons (guess : String → Option String) (c : Client) (series_id : String) :
    Except JError (List BMS) :=
  buildList (fun s => build_season guess c s false)
    (sortByIndex (get_children c series_id ITEM_TYPE_SEASON))

/-- Embedding of `_build_series`: a non-playable expandable `TvShow` node;
with children requested, children are the series' seasons with `Season`
children media class. -/
def build_series (guess : String → Option String) (c : Client) (series : Item)
    (include_children : Bool) : Except JError BMS :=
  match series.name with
  | none => .error (.keyError "Name")
  | some series_title =>
    let thumb := get_thumbnail_url c series
    if include_children then
      match build_seasons guess c series.id with
      | .error e => .error e
      | .ok children =>
        .ok (BMS.mk (some series.id) .tvShow none series_title false true thumb
          (some .season) (some children))
    else
      .ok (BMS.mk (some series.id) .tvShow none series_title false true thumb none none)

/-- Embedding of `_build_tvshow`: fetch `Series` children of the library,
sort by `Name`, build each without children. -/
def build_tvshow (guess : String → Option String) (c : Client) (library_id : String) :
    Except JError (List BMS) :=
  buildList (fun s => build_series guess c s false)
    (sortByName (get_children c library_id ITEM_TYPE_SERIES))

/-- Embedding of `_build_tv_library`: a `Directory` node; with children
requested, children are the library's series. -/
def build_tv_library (guess : String → Option String) (c : Client) (library : Item)
    (include_children : Bool) : Except JError BMS :=
  match library.name with
  | none => .error (.keyError "Name")
  | some library_name =>
    if include_children then
      match build_tvshow guess c library.id with
      | .error e => .error e
      | .ok children =>
        .ok (BMS.mk (some library.id) .directory none library_name false true none
          (some .tvShow) (some children))
    else
      .ok (BMS.mk (some library.id) .directory none library_name false true none none none)

/-- Embedding of `_build_library`: dispatch on the library's
`CollectionType` (read by direct indexing) to the music, movie or — for any
other value — TV library builder. -/
def build_library (guess : String → Option String) (c : Client) (library : Item)
    (include_children : Bool) : Except JError BMS :=
  match library.collectionType with
  | none => .error (.keyError "CollectionType")
  | some collection_type =>
    if collection_type = COLLECTION_TYPE_MUSIC then
      build_music_library guess c library include_children
    else if collection_type = COLLECTION_TYPE_MOVIES then
      build_movie_library guess c library include_children
    else
      build_tv_library guess c library include_children

/-- Embedding of `_build_libraries`: the synthetic root node (identifier
`none`, `Directory` class, not playable, expandable, `Directory` children
media class) whose children are the supported libraries built without their
own children. -/
def build_libraries (guess : String → Option String) (c : Client) : Except JError BMS :=
  match buildList (fun l => build_library guess c l false) (get_libraries c) with
  | .error e => .error e
  | .ok children =>
    .ok (BMS.mk none .directory none "Jellyfin" false true none
      (some .directory) (some children))

/-! The Stream Resolver and the Source Facade. -/

/-- Textual form of the `MediaType` value as interpolated into the source's
error message (Python renders the null value as `None`). -/
def mediaTypeText : Option String → String
  | some t => t
  | none => "None"

/-- Embedding of `_get_stream_url`: the external client's audio URL for
media type `Audio`, video URL for `Video`, `BrowseError` naming the
offending type otherwise. -/
def get_stream_url (c : Client) (media_item : Item) : Except JError String :=
  if media_item.mediaType = some MEDIA_TYPE_AUDIO then
    .ok (c.audio_url media_item.id)
  else if media_item.mediaType = some MEDIA_TYPE_VIDEO then
    .ok (c.video_url media_item.id)
  else
    .error (.browseError ("Unsupported media type " ++ mediaTypeText media_item.mediaType))

/-- Embedding of `async_browse_media`: `BrowseError` without a client; the
synthetic root for an empty or absent identifier; otherwise fetch the item
and dispatch on its `Type` with children included, `BrowseError` naming the
type when no builder matches. -/
def async_browse_media (guess : String → Option String) (client : Option Client)
    (identifier : Option String) : Except JError BMS :=
  match client with
  | none => .error (.browseError "Jellyfin not initialized")
  | some c =>
    if identifier.getD "" = "" then build_libraries guess c
    else
      match c.get_item (identifier.getD "") with
      | none => .error .externalError
      | some media_item =>
        if media_item.itemType = ITEM_TYPE_LIBRARY then
          build_library guess c media_item true
        else if media_item.itemType = ITEM_TYPE_ARTIST then
          build_artist guess c media_item true
        else if media_item.itemType = ITEM_TYPE_ALBUM then
          build_album guess c media_item true
        else if media_item.itemType = ITEM_TYPE_SERIES then
          build_series guess c media_item true
        else if media_item.itemType = ITEM_TYPE_SEASON then
          build_season guess c media_item true
        else
          .error (.browseError ("Unsupported item type " ++ media_item.itemType))

/-- Embedding of `async_resolve_media`: `Unresolvable` without a client;
otherwise fetch the item, compute the stream URL (which may fail with
`BrowseError`), then the MIME type; the source's `assert mime_type is not
None` is embedded as `JError.assertionError`. -/
def async_resolve_media (guess : String → Option String) (client : Option Client)
    (identifier : String) : Except JError (String × String) :=
  match client with
  | none => .error (.unresolvable "Jellyfin not initialized")
  | some c =>
    match c.get_item identifier with
    | none => .error .externalError
    | some media_item =>
      match get_stream_url c media_item with
      | .error e => .error e
      | .ok stream_url =>
        match media_mime_type guess media_item with
        | none => .error .assertionError
        | some mime_type => .ok (stream_url, mime_type)

/-! Concrete catalog fixtures used to evaluate the definitions on explicit
inputs. -/

/-- A blank item all other fixtures are derived from. -/
def item0 : Item :=
  { id := ""
    name := none
    itemType := ""
    collectionType := none
    indexNumber := none
    mediaType := none
    imageTags := []
    mediaSources := [] }

def libMusic : Item :=
  { item0 with id := "libm", name := some "Music", itemType := ITEM_TYPE_LIBRARY,
               collectionType := some COLLECTION_TYPE_MUSIC }

/-- A music library with zero artists but one album (the degenerate
fallback case). -/
def libMusic0 : Item := { libMusic with id := "libm0", name := some "Music0" }

def libMovies : Item :=
  { item0 with id := "libv", name := some "Movies", itemType := ITEM_TYPE_LIBRARY,
               collectionType := some COLLECTION_TYPE_MOVIES }

def libShows : Item :=
  { item0 with id := "libt", name := some "Shows", itemType := ITEM_TYPE_LIBRARY,
               collectionType := some COLLECTION_TYPE_TVSHOWS }

/-- A library with an unsupported collection type. -/
def libBox : Item :=
  { item0 with id := "libx", name := some "Box", itemType := ITEM_TYPE_LIBRARY,
               collectionType := some "boxsets" }

/-- A library without a `CollectionType` key. -/
def libNoCT : Item :=
  { item0 with id := "libn", name := some "NoCT", itemType := ITEM_TYPE_LIBRARY }

def artist1 : Item :=
  { item0 with id := "ar1", name := some "Artist", itemType := ITEM_TYPE_ARTIST,
               imageTags := ["Primary"] }

def album1 : Item :=
  { item0 with id := "al1", name := some "Album", itemType := ITEM_TYPE_ALBUM }

/-- An artist without a `Name` key. -/
def artistNoName : Item :=
  { item0 with id := "arN", itemType := ITEM_TYPE_ARTIST }

def track1 : Item :=
  { item0 with id := "t1", name := some "Song", itemType := ITEM_TYPE_AUDIO,
               indexNumber := some 1, mediaType := some MEDIA_TYPE_AUDIO,
               mediaSources := [⟨some "/music/song.mp3"⟩] }

/-- An audio item without media sources: no derivable MIME type. -/
def track2 : Item :=
  { item0 with id := "t2", name := some "NoMime", itemType := ITEM_TYPE_AUDIO,
               indexNumber := some 2 }

def movie1 : Item :=
  { item0 with id := "mv1", name := some "Film", itemType := ITEM_TYPE_MOVIE,
               mediaType := some MEDIA_TYPE_VIDEO,
               mediaSources := [⟨some "/movies/film.mp4"⟩] }

def series1 : Item :=
  { item0 with id := "se1", name := some "Series", itemType := ITEM_TYPE_SERIES }

def season1 : Item :=
  { item0 with id := "sn1", name := some "Season 1", itemType := ITEM_TYPE_SEASON,
               indexNumber := some 1 }

def episode1 : Item :=
  { item0 with id := "ep1", name := some "Pilot", itemType := ITEM_TYPE_EPISODE,
               indexNumber := some 1, mediaType := some MEDIA_TYPE_VIDEO,
               mediaSources := [⟨some "/tv/pilot.mp4"⟩] }

/-- An episode without a `Name` key and without media sources. -/
def episodeNoName : Item :=
  { item0 with id := "epn", itemType := ITEM_TYPE_EPISODE, indexNumber := some 2 }

/-- An item of a type that cannot be browsed into and whose media type is
neither Audio nor Video. -/
def photo1 : Item :=
  { item0 with id := "ph1", name := some "Photo", itemType := "Photo",
               mediaType := some "Photo" }

/-- Albums for the sorting example: named `B`, unnamed, named `A`. -/
def albumB : Item :=
  { item0 with id := "aB", name := some "B", itemType := ITEM_TYPE_ALBUM }

def albumNoName : Item :=
  { item0 with id := "aN", itemType := ITEM_TYPE_ALBUM }

def albumA : Item :=
  { item0 with id := "aA", name := some "A", itemType := ITEM_TYPE_ALBUM }

/-- The concrete external-client oracle behind the fixtures. -/
def tc : Client :=
  { media_folders := [libMusic, libMovies, libShows, libBox, libNoCT]
    user_items := fun parent t =>
      if parent = "libm" then
        if t = ITEM_TYPE_ARTIST then [artist1, artistNoName]
        else if t = ITEM_TYPE_ALBUM then [album1] else []
      else if parent = "libm0" then
        if t = ITEM_TYPE_ALBUM then [album1] else []
      else if parent = "ar1" then
        if t = ITEM_TYPE_ALBUM then [album1] else []
      else if parent = "al1" then
        if t = ITEM_TYPE_AUDIO then [track1, track2] else []
      else if parent = "libv" then
        if t = ITEM_TYPE_MOVIE then [movie1] else []
      else if parent = "libt" then
        if t = ITEM_TYPE_SERIES then [series1] else []
      else if parent = "se1" then
        if t = ITEM_TYPE_SEASON then [season1] else []
      else if parent = "sn1" then
        if t = ITEM_TYPE_EPISODE then [episode1, episodeNoName] else []
      else []
    get_item := fun i =>
      if i = "t1" then some track1
      else if i = "se1" then some series1
      else if i = "ph1" then some photo1
      else if i = "libm" then some libMusic
      else if i = "mv1" then some movie1
      else none
    audio_url := fun i => "http://srv/Audio/" ++ i ++ "/stream"
    video_url := fun i => "http://srv/Video/" ++ i ++ "/stream"
    artwork := fun i kind _ => "http://srv/Items/" ++ i ++ "/Images/" ++ kind }

/-- The node built for `track1` inside its album's children list. -/
def trackNode1 : BMS :=
  BMS.mk (some "t1") .track (some "audio/mpeg") "Song" true false none none none

/-- The node built for `season1` inside its series' children list: its own
media class is `TvShow` in the source. -/
def seasonChild : BMS :=
  BMS.mk (some "sn1") .tvShow none "Season 1" false true none none none

/-- The node built when browsing `series1` with children included. -/
def seriesNode : BMS :=
  BMS.mk (some "se1") .tvShow none "Series" false true none (some .season)
    (some [seasonChild])

/-- The node built for `album1` inside a children list. -/
def albumChild : BMS :=
  BMS.mk (some "al1") .album none "Album" false true none none none

/-- The node built when browsing `libMusic0` (zero artists, one album). -/
def musicNode0 : BMS :=
  BMS.mk (some "libm0") .directory none "Music0" false true none (some .album)
    (some [albumChild])

/-- The node built for `episode1` inside its season's children list. -/
def episodeNode1 : BMS :=
  BMS.mk (some "ep1") .episode (some "video/mp4") "Pilot" true false none none none

/-- The synthetic root node built from `tc`'s library listing. -/
def rootNode : BMS :=
  BMS.mk none .directory none "Jellyfin" false true none (some .directory)
    (some [BMS.mk (some "libm") .directory none "Music" false true none none none,
           BMS.mk (some "libv") .directory none "Movies" false true none none none,
           BMS.mk (some "libt") .directory none "Shows" false true none none none])

/-! Properties of the comparators and of the missing-field-tolerant sort. -/

theorem charsLe_total : ∀ xs ys : List Char, charsLe xs ys = true ∨ charsLe ys xs = true := by
  intro xs
  induction xs with
  | nil => intro ys; left; rfl
  | cons x xs ih =>
    intro ys
    cases ys with
    | nil => right; rfl
    | cons y ys =>
      by_cases h1 : x.toNat < y.toNat
      · left; simp [charsLe, h1]
      · by_cases h2 : y.toNat < x.toNat
        · right; simp [charsLe, h1, h2]
        · rcases ih ys with h | h
          · left; simp [charsLe, h1, h2, h]
          · right; simp [charsLe, h1, h2, h]

theorem charsLe_trans : ∀ xs ys zs : List Char,
    charsLe xs ys = true → charsLe ys zs = true → charsLe xs zs = true := by
  intro xs
  induction xs with
  | nil => intro ys zs _ _; rfl
  | cons x xs ih =>
    intro ys zs hxy hyz
    cases ys with
    | nil => simp [charsLe] at hxy
    | cons y ys =>
      cases zs with
      | nil => simp [charsLe] at hyz
      | cons z zs =>
        simp only [charsLe] at hxy hyz ⊢
        split_ifs at hxy hyz ⊢ <;>
          first
            | rfl
            | (exact ih ys zs hxy hyz)
            | (exact absurd hxy Bool.false_ne_true)
            | (exact absurd hyz Bool.false_ne_true)
            | (exfalso; omega)

theorem strLe_total (a b : String) : strLe a b = true ∨ strLe b a = true :=
  charsLe_total a.data b.data

theorem strLe_trans (a b c : String) :
    strLe a b = true → strLe b c = true → strLe a c = true :=
  charsLe_trans a.data b.data c.data

theorem intLe_total (a b : Int) : intLe a b = true ∨ intLe b a = true := by
  unfold intLe
  rcases le_total a b with h | h
  · left; simpa using h
  · right; simpa using h

theorem intLe_trans (a b c : Int) :
    intLe a b = true → intLe b c = true → intLe a c = true := by
  unfold intLe
  intro h1 h2
  simp only [decide_eq_true_eq] at *
  exact le_trans h1 h2

theorem keyLE_total {κ : Type} (leb : κ → κ → Bool) (key : Item → Option κ)
    (h : ∀ x y, leb x y = true ∨ leb y x = true) (a b : Item) :
    keyLE leb key a b ∨ keyLE leb key b a := by
  unfold keyLE keyLEb
  cases key a with
  | none => cases key b <;> simp
  | some x =>
    cases key b with
    | none => simp
    | some y => simpa using h x y

theorem keyLE_trans {κ : Type} (leb : κ → κ → Bool) (key : Item → Option κ)
    (h : ∀ x y z, leb x y = true → leb y z = true → leb x z = true) (a b c : Item) :
    keyLE leb key a b → keyLE leb key b c → keyLE leb key a c := by
  intro hab hbc
  unfold keyLE keyLEb at hab hbc ⊢
  cases hka : key a <;> cases hkb : key b <;> cases hkc : key c <;> simp_all
  exact h _ _ _ hab hbc

theorem sortItems_perm {κ : Type} (leb : κ → κ → Bool) (key : Item → Option κ)
    (l : List Item) : List.Perm (sortItems leb key l) l :=
  List.perm_insertionSort _ l

theorem sortItems_sorted {κ : Type} (leb : κ → κ → Bool) (key : Item → Option κ)
    (htot : ∀ x y, leb x y = true ∨ leb y x = true)
    (htr : ∀ x y z, leb x y = true → leb y z = true → leb x z = true)
    (l : List Item) : (sortItems leb key l).Pairwise (keyLE leb key) := by
  haveI : IsTotal Item (keyLE leb key) := ⟨keyLE_total leb key htot⟩
  haveI : IsTrans Item (keyLE leb key) := ⟨fun a b c => keyLE_trans leb key htr a b c⟩
  exact List.sorted_insertionSort _ l

/-- Items lacking the sort field keep their original relative order: the
sort does not disturb the subsequence of field-less records. -/
theorem sortItems_none_filter {κ : Type} (leb : κ → κ → Bool) (key : Item → Option κ)
    (l : List Item) :
    (sortItems leb key l).filter (fun i => (key i).isNone) =
      l.filter (fun i => (key i).isNone) := by
  have hpw : (l.filter (fun i => (key i).isNone)).Pairwise (keyLE leb key) := by
    apply List.pairwise_of_forall_mem_list
    intro a ha b hb
    have hka : key a = none := by
      simpa [Option.isNone_iff_eq_none] using (List.mem_filter.mp ha).2
    have hkb : key b = none := by
      simpa [Option.isNone_iff_eq_none] using (List.mem_filter.mp hb).2
    unfold keyLE keyLEb
    rw [hka, hkb]
  have hsub : List.Sublist (l.filter (fun i => (key i).isNone)) (sortItems leb key l) :=
    List.sublist_insertionSort hpw (List.filter_sublist l)
  have hself : (l.filter (fun i => (key i).isNone)).filter (fun i => (key i).isNone) =
      l.filter (fun i => (key i).isNone) :=
    List.filter_eq_self.mpr (fun a ha => (List.mem_filter.mp ha).2)
  have hsubf : List.Sublist (l.filter (fun i => (key i).isNone))
      ((sortItems leb key l).filter (fun i => (key i).isNone)) := by
    have := hsub.filter (fun i => (key i).isNone)
    rwa [hself] at this
  have hlen : ((sortItems leb key l).filter (fun i => (key i).isNone)).length =
      (l.filter (fun i => (key i).isNone)).length :=
    ((sortItems_perm leb key l).filter _).length_eq
  exact (hsubf.eq_of_length hlen.symm).symm

/-- In a list sorted by the tolerant key, every record with the field comes
before every record without it: the list is the records with the field
followed by those without. -/
theorem sorted_partition {κ : Type} (leb : κ → κ → Bool) (key : Item → Option κ) :
    ∀ S : List Item, S.Pairwise (keyLE leb key) →
      S.filter (fun i => (key i).isSome) ++ S.filter (fun i => (key i).isNone) = S := by
  intro S
  induction S with
  | nil => simp
  | cons a T ih =>
    intro hpw
    rcases List.pairwise_cons.mp hpw with ⟨ha, hT⟩
    by_cases hk : (key a).isSome
    · have hnk : ((key a).isNone) = false := by
        simp [Option.isNone_iff_eq_none]
        exact Option.isSome_iff_exists.mp hk |>.elim (fun x hx => by simp [hx])
      simp only [List.filter_cons, hk, hnk, if_pos, if_neg, Bool.false_eq_true,
        not_false_eq_true, List.cons_append]
      rw [ih hT]
    · have hka : key a = none := by
        cases hko : key a with
        | none => rfl
        | some x => rw [hko] at hk; simp at hk
      have hallnone : ∀ b ∈ T, key b = none := by
        intro b hb
        have hle := ha b hb
        unfold keyLE keyLEb at hle
        rw [hka] at hle
        cases hkb : key b with
        | none => rfl
        | some y => rw [hkb] at hle; simp at hle
      have hfT : T.filter (fun i => (key i).isSome) = [] := by
        apply List.filter_eq_nil_iff.mpr
        intro b hb
        simp [hallnone b hb]
      have hfT2 : T.filter (fun i => (key i).isNone) = T :=
        List.filter_eq_self.mpr (fun b hb => by simp [hallnone b hb])
      simp [List.filter_cons, hka, hfT, hfT2]

/-! Properties of fallible children-list construction. -/

theorem buildList_ok_length (f : Item → Except JError BMS) :
    ∀ l ns, buildList f l = .ok ns → ns.length = l.length := by
  intro l
  induction l with
  | nil =>
    intro ns h
    simp only [buildList] at h
    cases h
    rfl
  | cons i is ih =>
    intro ns h
    simp only [buildList] at h
    cases hf : f i with
    | error e => rw [hf] at h; simp at h
    | ok n =>
      rw [hf] at h
      cases hb : buildList f is with
      | error e => rw [hb] at h; simp at h
      | ok ms =>
        rw [hb] at h
        simp only [Except.ok.injEq] at h
        subst h
        simp [ih ms hb]

theorem buildList_ok_forall (f : Item → Except JError BMS) :
    ∀ l ns, buildList f l = .ok ns → ∀ n ∈ ns, ∃ i ∈ l, f i = .ok n := by
  intro l
  induction l with
  | nil =>
    intro ns h n hn
    simp only [buildList] at h
    cases h
    simp at hn
  | cons i is ih =>
    intro ns h n hn
    simp only [buildList] at h
    cases hf : f i with
    | error e => rw [hf] at h; simp at h
    | ok m =>
      rw [hf] at h
      cases hb : buildList f is with
      | error e => rw [hb] at h; simp at h
      | ok ms =>
        rw [hb] at h
        simp only [Except.ok.injEq] at h
        subst h
        rcases List.mem_cons.mp hn with rfl | hn'
        · exact ⟨i, List.mem_cons_self i is, hf⟩
        · rcases ih ms hb n hn' with ⟨j, hj, hfj⟩
          exact ⟨j, List.mem_cons_of_mem i hj, hfj⟩

/-- When some list member fails and every failure of `f` carries the same
error, the whole construction fails with that error (the first failing item
aborts the loop). -/
theorem buildList_error (f : Item → Except JError BMS) (E : JError)
    (hAll : ∀ i e, f i = .error e → e = E) :
    ∀ l, (∃ i ∈ l, ∃ e, f i = .error e) → buildList f l = .error E := by
  intro l
  induction l with
  | nil =>
    rintro ⟨i, hi, _⟩
    simp at hi
  | cons j js ih =>
    rintro ⟨i, hi, e, he⟩
    rcases List.mem_cons.mp hi with rfl | hi'
    · cases hfj : f i with
      | error e' =>
        have : e' = E := hAll i e' hfj
        subst this
        simp only [buildList, hfj]
      | ok n =>
        rw [hfj] at he
        exact Except.noConfusion he
    · cases hfj : f j with
      | error e' =>
        have : e' = E := hAll j e' hfj
        subst this
        simp only [buildList, hfj]
      | ok n =>
        simp only [buildList, hfj, ih ⟨i, hi', e, he⟩]

/-! Shapes of the nodes produced by the individual constructors. -/

theorem build_track_ok (guess : String → Option String) (c : Client) (t : Item) (n : BMS)
    (h : build_track guess c t = .ok n) :
    n.can_play = true ∧ n.media_content_type = media_mime_type guess t ∧
      n.media_class = .track ∧ n.can_expand = false := by
  cases ht : t.name with
  | none => simp [build_track, ht] at h
  | some nm =>
    simp only [build_track, ht, Except.ok.injEq] at h
    subst h
    exact ⟨rfl, rfl, rfl, rfl⟩

theorem build_movie_ok (guess : String → Option String) (c : Client) (t : Item) (n : BMS)
    (h : build_movie guess c t = .ok n) :
    n.can_play = true ∧ n.media_content_type = media_mime_type guess t ∧
      n.media_class = .movie ∧ n.can_expand = false := by
  cases ht : t.name with
  | none => simp [build_movie, ht] at h
  | some nm =>
    simp only [build_movie, ht, Except.ok.injEq] at h
    subst h
    exact ⟨rfl, rfl, rfl, rfl⟩

theorem build_episode_ok (guess : String → Option String) (c : Client) (t : Item) (n : BMS)
    (h : build_episode guess c t = .ok n) :
    n.can_play = true ∧ n.media_content_type = media_mime_type guess t ∧
      n.media_class = .episode ∧ n.can_expand = false := by
  cases ht : t.name with
  | none => simp [build_episode, ht] at h
  | some nm =>
    simp only [build_episode, ht, Except.ok.injEq] at h
    subst h
    exact ⟨rfl, rfl, rfl, rfl⟩

theorem build_artist_flat_ok (guess : String → Option String) (c : Client) (a : Item) (n : BMS)
    (h : build_artist guess c a false = .ok n) :
    n.media_class = .artist ∧ n.can_play = false ∧ n.can_expand = true := by
  cases ha : a.name with
  | none => simp [build_artist, ha] at h
  | some nm =>
    simp only [build_artist, ha, Bool.false_eq_true, if_false, Except.ok.injEq] at h
    subst h
    exact ⟨rfl, rfl, rfl⟩

theorem build_album_flat_ok (guess : String → Option String) (c : Client) (a : Item) (n : BMS)
    (h : build_album guess c a false = .ok n) :
    n.media_class = .album ∧ n.can_play = false ∧ n.can_expand = true := by
  cases ha : a.name with
  | none => simp [build_album, ha] at h
  | some nm =>
    simp only [build_album, ha, Bool.false_eq_true, if_false, Except.ok.injEq] at h
    subst h
    exact ⟨rfl, rfl, rfl⟩

theorem build_season_flat_ok (guess : String → Option String) (c : Client) (s : Item) (n : BMS)
    (h : build_season guess c s false = .ok n) :
    n.media_class = .tvShow ∧ n.can_play = false ∧ n.can_expand = true := by
  cases hs : s.name with
  | none => simp [build_season, hs] at h
  | some nm =>
    simp only [build_season, hs, Bool.false_eq_true, if_false, Except.ok.injEq] at h
    subst h
    exact ⟨rfl, rfl, rfl⟩

/-! Every failure of a node constructor applied without children is the
`KeyError` on the `Name` key. -/

theorem build_track_error (guess : String → Option String) (c : Client) (t : Item) (e : JError)
    (h : build_track guess c t = .error e) : e = .keyError "Name" := by
  cases ht : t.name with
  | none =>
    simp only [build_track, ht, Except.error.injEq] at h
    exact h.symm
  | some nm => simp [build_track, ht] at h

theorem build_movie_error (guess : String → Option String) (c : Client) (t : Item) (e : JError)
    (h : build_movie guess c t = .error e) : e = .keyError "Name" := by
  cases ht : t.name with
  | none =>
    simp only [build_movie, ht, Except.error.injEq] at h
    exact h.symm
  | some nm => simp [build_movie, ht] at h

theorem build_episode_error (guess : String → Option String) (c : Client) (t : Item) (e : JError)
    (h : build_episode guess c t = .error e) : e = .keyError "Name" := by
  cases ht : t.name with
  | none =>
    simp only [build_episode, ht, Except.error.injEq] at h
    exact h.symm
  | some nm => simp [build_episode, ht] at h

theorem build_artist_flat_error (guess : String → Option String) (c : Client) (a : Item)
    (e : JError) (h : build_artist guess c a false = .error e) : e = .keyError "Name" := by
  cases ha : a.name with
  | none =>
    simp only [build_artist, ha, Except.error.injEq] at h
    exact h.symm
  | some nm => simp [build_artist, ha] at h

theorem build_album_flat_error (guess : String → Option String) (c : Client) (a : Item)
    (e : JError) (h : build_album guess c a false = .error e) : e = .keyError "Name" := by
  cases ha : a.name with
  | none =>
    simp only [build_album, ha, Except.error.injEq] at h
    exact h.symm
  | some nm => simp [build_album, ha] at h

theorem build_series_flat_error (guess : String → Option String) (c : Client) (s : Item)
    (e : JError) (h : build_series guess c s false = .error e) : e = .keyError "Name" := by
  cases hs : s.name with
  | none =>
    simp only [build_series, hs, Except.error.injEq] at h
    exact h.symm
  | some nm => simp [build_series, hs] at h

theorem build_season_flat_error (guess : String → Option String) (c : Client) (s : Item)
    (e : JError) (h : build_season guess c s false = .error e) : e = .keyError "Name" := by
  cases hs : s.name with
  | none =>
    simp only [build_season, hs, Except.error.injEq] at h
    exact h.symm
  | some nm => simp [build_season, hs] at h

/-! Claim theorems. -/

/-- Helper for the `.mp3` / `.mp4` / unmatched-extension conjuncts: the
extension scan on a reversed list that starts with a concrete extension
followed by the dot. -/
theorem extRev_concrete3 (a b d : Char) (ha : a ≠ '.') (hb : b ≠ '.') (hd : d ≠ '.')
    (rest : List Char) : extRev (a :: b :: d :: '.' :: rest) = some [a, b, d] := by
  simp [extRev, ha, hb, hd]

/-- C2: the Mime Resolver returns none when `mediaSources` is empty or
absent; otherwise it inspects only the first media source and returns none
when that source lacks a path; otherwise it returns the mapping's result
for the path, and under the modelled standard mapping a path ending in
`.mp3` yields an audio MIME type, one ending in `.mp4` a video MIME type,
and an unmapped extension yields none. -/
theorem C2_mime_resolver :
    (∀ (guess : String → Option String) (item : Item),
        item.mediaSources = [] → media_mime_type guess item = none) ∧
    (∀ (guess : String → Option String) (item : Item) (ms : MediaSourceRec)
        (tl : List MediaSourceRec), item.mediaSources = ms :: tl → ms.path = none →
        media_mime_type guess item = none) ∧
    (∀ (guess : String → Option String) (item : Item) (ms : MediaSourceRec)
        (tl : List MediaSourceRec) (p : String), item.mediaSources = ms :: tl →
        ms.path = some p → media_mime_type guess item = guess p) ∧
    (∀ pre : String, guessTypeStd (pre ++ ".mp3") = some "audio/mpeg") ∧
    (∀ pre : String, guessTypeStd (pre ++ ".mp4") = some "video/mp4") ∧
    (∀ pre : String, guessTypeStd (pre ++ ".xyz") = none) := by
  refine ⟨?_, ?_, ?_, ?_, ?_, ?_⟩
  · intro guess item h
    simp [media_mime_type, h]
  · intro guess item ms tl h hp
    simp [media_mime_type, h, hp]
  · intro guess item ms tl p h hp
    simp [media_mime_type, h, hp]
  · intro pre
    have hd : (pre ++ ".mp3").data.reverse = '3' :: 'p' :: 'm' :: '.' :: pre.data.reverse := by
      simp [String.data_append]
    have he : extRev ('3' :: 'p' :: 'm' :: '.' :: pre.data.reverse) = some ['3', 'p', 'm'] :=
      extRev_concrete3 '3' 'p' 'm' (by decide) (by decide) (by decide) pre.data.reverse
    simp only [guessTypeStd, hd]
    rw [he]
    rfl
  · intro pre
    have hd : (pre ++ ".mp4").data.reverse = '4' :: 'p' :: 'm' :: '.' :: pre.data.reverse := by
      simp [String.data_append]
    have he : extRev ('4' :: 'p' :: 'm' :: '.' :: pre.data.reverse) = some ['4', 'p', 'm'] :=
      extRev_concrete3 '4' 'p' 'm' (by decide) (by decide) (by decide) pre.data.reverse
    simp only [guessTypeStd, hd]
    rw [he]
    rfl
  · intro pre
    have hd : (pre ++ ".xyz").data.reverse = 'z' :: 'y' :: 'x' :: '.' :: pre.data.reverse := by
      simp [String.data_append]
    have he : extRev ('z' :: 'y' :: 'x' :: '.' :: pre.data.reverse) = some ['z', 'y', 'x'] :=
      extRev_concrete3 'z' 'y' 'x' (by decide) (by decide) (by decide) pre.data.reverse
    simp only [guessTypeStd, hd]
    rw [he]
    rfl

/-- Witness for C2 at concrete inputs: an item with no media sources, the
fixture track whose first source path ends in `.mp3`, and the suffix cases
on concrete paths. -/
theorem C2_witness :
    media_mime_type guessTypeStd track2 = none ∧
    media_mime_type guessTypeStd track1 = guessTypeStd "/music/song.mp3" ∧
    guessTypeStd "/music/song.mp3" = some "audio/mpeg" ∧
    guessTypeStd "/movies/film.mp4" = some "video/mp4" ∧
    guessTypeStd "/data/file.xyz" = none :=
  ⟨C2_mime_resolver.1 guessTypeStd track2 rfl,
   C2_mime_resolver.2.2.1 guessTypeStd track1 ⟨some "/music/song.mp3"⟩ []
     "/music/song.mp3" rfl rfl,
   C2_mime_resolver.2.2.2.1 "/music/song",
   C2_mime_resolver.2.2.2.2.1 "/movies/film",
   C2_mime_resolver.2.2.2.2.2 "/data/file"⟩

/-- C6: the stream resolver returns the external client's audio stream URL
for media type Audio, its video stream URL for Video, and otherwise — and
only otherwise — fails with a BrowseError naming the offending media
type. -/
theorem C6_stream_resolver (c : Client) (item : Item) :
    (item.mediaType = some MEDIA_TYPE_AUDIO →
        get_stream_url c item = .ok (c.audio_url item.id)) ∧
    (item.mediaType = some MEDIA_TYPE_VIDEO →
        get_stream_url c item = .ok (c.video_url item.id)) ∧
    (item.mediaType ≠ some MEDIA_TYPE_AUDIO → item.mediaType ≠ some MEDIA_TYPE_VIDEO →
        get_stream_url c item =
          .error (.browseError ("Unsupported media type " ++ mediaTypeText item.mediaType))) := by
  refine ⟨?_, ?_, ?_⟩
  · intro h
    simp [get_stream_url, h]
  · intro h
    simp [get_stream_url, h, MEDIA_TYPE_AUDIO, MEDIA_TYPE_VIDEO]
  · intro h1 h2
    simp [get_stream_url, h1, h2]

/-- Witness for C6: the audio fixture resolves to the audio URL, and the
photo fixture (media type neither Audio nor Video) fails with a BrowseError
naming `Photo`. -/
theorem C6_witness :
    track1.mediaType = some MEDIA_TYPE_AUDIO ∧
    get_stream_url tc track1 = .ok "http://srv/Audio/t1/stream" ∧
    photo1.mediaType ≠ some MEDIA_TYPE_AUDIO ∧
    get_stream_url tc photo1 = .error (.browseError "Unsupported media type Photo") :=
  ⟨rfl, (C6_stream_resolver tc track1).1 rfl, by decide,
   (C6_stream_resolver tc photo1).2.2 (by decide) (by decide)⟩

/-- C5: browsing without a client fails with BrowseError; an empty or absent
identifier returns the synthetic root; otherwise the fetched item is
dispatched by type with children included, and every type outside
Library/Artist/Album/Series/Season fails with BrowseError. -/
theorem C5_browse_dispatch (guess : String → Option String) :
    (∀ ident, async_browse_media guess none ident =
        .error (.browseError "Jellyfin not initialized")) ∧
    (∀ c : Client, async_browse_media guess (some c) none = build_libraries guess c ∧
        async_browse_media guess (some c) (some "") = build_libraries guess c) ∧
    (∀ (c : Client) (ident : String) (item : Item), ident ≠ "" →
        c.get_item ident = some item →
        (item.itemType = ITEM_TYPE_LIBRARY →
            async_browse_media guess (some c) (some ident) = build_library guess c item true) ∧
        (item.itemType = ITEM_TYPE_ARTIST →
            async_browse_media guess (some c) (some ident) = build_artist guess c item true) ∧
        (item.itemType = ITEM_TYPE_ALBUM →
            async_browse_media guess (some c) (some ident) = build_album guess c item true) ∧
        (item.itemType = ITEM_TYPE_SERIES →
            async_browse_media guess (some c) (some ident) = build_series guess c item true) ∧
        (item.itemType = ITEM_TYPE_SEASON →
            async_browse_media guess (some c) (some ident) = build_season guess c item true) ∧
        (item.itemType ∉ [ITEM_TYPE_LIBRARY, ITEM_TYPE_ARTIST, ITEM_TYPE_ALBUM,
            ITEM_TYPE_SERIES, ITEM_TYPE_SEASON] →
            async_browse_media guess (some c) (some ident) =
              .error (.browseError ("Unsupported item type " ++ item.itemType)))) := by
  refine ⟨?_, ?_, ?_⟩
  · intro ident
    simp [async_browse_media]
  · intro c
    exact ⟨rfl, rfl⟩
  · intro c ident item hid hget
    have hne : ¬(ident = "") := hid
    refine ⟨?_, ?_, ?_, ?_, ?_, ?_⟩
    · intro h
      simp [async_browse_media, hne, hget, h]
    · intro h
      simp [async_browse_media, hne, hget, h, ITEM_TYPE_LIBRARY, ITEM_TYPE_ARTIST]
    · intro h
      simp [async_browse_media, hne, hget, h, ITEM_TYPE_LIBRARY, ITEM_TYPE_ARTIST,
        ITEM_TYPE_ALBUM]
    · intro h
      simp [async_browse_media, hne, hget, h, ITEM_TYPE_LIBRARY, ITEM_TYPE_ARTIST,
        ITEM_TYPE_ALBUM, ITEM_TYPE_SERIES]
    · intro h
      simp [async_browse_media, hne, hget, h, ITEM_TYPE_LIBRARY, ITEM_TYPE_ARTIST,
        ITEM_TYPE_ALBUM, ITEM_TYPE_SERIES, ITEM_TYPE_SEASON]
    · intro h
      simp only [List.mem_cons, List.not_mem_nil, or_false, not_or] at h
      rcases h with ⟨h1, h2, h3, h4, h5⟩
      simp [async_browse_media, hne, hget, h1, h2, h3, h4, h5]

/-- Witness for C5: browsing the photo fixture (a type with no builder)
fails with a BrowseError naming the type. -/
theorem C5_witness :
    tc.get_item "ph1" = some photo1 ∧
    async_browse_media guessTypeStd (some tc) (some "ph1") =
      .error (.browseError "Unsupported item type Photo") :=
  ⟨rfl,
   ((C5_browse_dispatch guessTypeStd).2.2 tc "ph1" photo1 (by decide) rfl).2.2.2.2.2
     (by decide)⟩

/-- C1: in every leaf-type children list (tracks, movies, episodes) every
returned node is playable with a non-none media content type, and the list
has exactly one node per fetched item with a derivable MIME type — items
whose Mime Resolver result is none are excluded entirely. -/
theorem C1_leaf_children (guess : String → Option String) (c : Client) (pid : String) :
    (∀ ns, build_tracks guess c pid = .ok ns →
        (∀ n ∈ ns, n.can_play = true ∧ n.media_content_type.isSome = true) ∧
        ns.length = ((get_children c pid ITEM_TYPE_AUDIO).filter
          (fun t => (media_mime_type guess t).isSome)).length) ∧
    (∀ ns, build_movies guess c pid = .ok ns →
        (∀ n ∈ ns, n.can_play = true ∧ n.media_content_type.isSome = true) ∧
        ns.length = ((get_children c pid ITEM_TYPE_MOVIE).filter
          (fun t => (media_mime_type guess t).isSome)).length) ∧
    (∀ ns, build_episodes guess c pid = .ok ns →
        (∀ n ∈ ns, n.can_play = true ∧ n.media_content_type.isSome = true) ∧
        ns.length = ((get_children c pid ITEM_TYPE_EPISODE).filter
          (fun t => (media_mime_type guess t).isSome)).length) := by
  refine ⟨?_, ?_, ?_⟩
  · intro ns h
    unfold build_tracks at h
    constructor
    · intro n hn
      rcases buildList_ok_forall _ _ _ h n hn with ⟨i, hi, hfi⟩
      have hip : (media_mime_type guess i).isSome := (List.mem_filter.mp hi).2
      rcases build_track_ok guess c i n hfi with ⟨hp, hm, _, _⟩
      exact ⟨hp, by rw [hm]; exact hip⟩
    · rw [buildList_ok_length _ _ _ h]
      exact ((sortItems_perm _ _ _).filter _).length_eq
  · intro ns h
    unfold build_movies at h
    constructor
    · intro n hn
      rcases buildList_ok_forall _ _ _ h n hn with ⟨i, hi, hfi⟩
      have hip : (media_mime_type guess i).isSome := (List.mem_filter.mp hi).2
      rcases build_movie_ok guess c i n hfi with ⟨hp, hm, _, _⟩
      exact ⟨hp, by rw [hm]; exact hip⟩
    · rw [buildList_ok_length _ _ _ h]
      exact ((sortItems_perm _ _ _).filter _).length_eq
  · intro ns h
    unfold build_episodes at h
    constructor
    · intro n hn
      rcases buildList_ok_forall _ _ _ h n hn with ⟨i, hi, hfi⟩
      have hip : (media_mime_type guess i).isSome := (List.mem_filter.mp hi).2
      rcases build_episode_ok guess c i n hfi with ⟨hp, hm, _, _⟩
      exact ⟨hp, by rw [hm]; exact hip⟩
    · rw [buildList_ok_length _ _ _ h]
      exact ((sortItems_perm _ _ _).filter _).length_eq

/-- Witness for C1: the fixture album fetches two audio items, one with a
`.mp3` path and one with no media sources; the built list holds exactly the
playable one, with a non-none content type. -/
theorem C1_witness :
    build_tracks guessTypeStd tc "al1" = .ok [trackNode1] ∧
    get_children tc "al1" ITEM_TYPE_AUDIO = [track1, track2] ∧
    media_mime_type guessTypeStd track2 = none ∧
    trackNode1.can_play = true ∧ trackNode1.media_content_type.isSome = true ∧
    [trackNode1].length = ((get_children tc "al1" ITEM_TYPE_AUDIO).filter
      (fun t => (media_mime_type guessTypeStd t).isSome)).length := by
  have h := (C1_leaf_children guessTypeStd tc "al1").1 [trackNode1] rfl
  have hmem : trackNode1 ∈ [trackNode1] := List.mem_cons_self _ _
  exact ⟨rfl, rfl, rfl, (h.1 trackNode1 hmem).1, (h.1 trackNode1 hmem).2, h.2⟩

/-- C3: every fetched children list is sorted stably, records with the sort
field first in ascending field order, records missing the field after them
in their original relative order; `name` is the key for artists, albums,
movies and series, `indexNumber` for tracks, seasons and episodes; and the
spec's album example sorts as stated. -/
theorem C3_sort_policy :
    (∀ l : List Item,
        List.Perm (sortByName l) l ∧
        (sortByName l).Pairwise (keyLE strLe (fun i => i.name)) ∧
        (sortByName l).filter (fun i => i.name.isNone) =
          l.filter (fun i => i.name.isNone) ∧
        (sortByName l).filter (fun i => i.name.isSome) ++
            (sortByName l).filter (fun i => i.name.isNone) = sortByName l ∧
        (∀ a b : Item, keyLE strLe (fun i => i.name) a b →
            List.Sublist [a, b] l → List.Sublist [a, b] (sortByName l))) ∧
    (∀ l : List Item,
        List.Perm (sortByIndex l) l ∧
        (sortByIndex l).Pairwise (keyLE intLe (fun i => i.indexNumber)) ∧
        (sortByIndex l).filter (fun i => i.indexNumber.isNone) =
          l.filter (fun i => i.indexNumber.isNone) ∧
        (sortByIndex l).filter (fun i => i.indexNumber.isSome) ++
            (sortByIndex l).filter (fun i => i.indexNumber.isNone) = sortByIndex l ∧
        (∀ a b : Item, keyLE intLe (fun i => i.indexNumber) a b →
            List.Sublist [a, b] l → List.Sublist [a, b] (sortByIndex l))) ∧
    sortByName [albumB, albumNoName, albumA] = [albumA, albumB, albumNoName] := by
  refine ⟨fun l => ⟨?_, ?_, ?_, ?_, ?_⟩, fun l => ⟨?_, ?_, ?_, ?_, ?_⟩, ?_⟩
  · exact sortItems_perm _ _ l
  · exact sortItems_sorted _ _ strLe_total strLe_trans l
  · exact sortItems_none_filter _ _ l
  · exact sorted_partition _ _ _ (sortItems_sorted _ _ strLe_total strLe_trans l)
  · intro a b hab hsub
    exact List.pair_sublist_insertionSort hab hsub
  · exact sortItems_perm _ _ l
  · exact sortItems_sorted _ _ intLe_total intLe_trans l
  · exact sortItems_none_filter _ _ l
  · exact sorted_partition _ _ _ (sortItems_sorted _ _ intLe_total intLe_trans l)
  · intro a b hab hsub
    exact List.pair_sublist_insertionSort hab hsub
  · rfl

/-- Witness for C3: the stability clause applied to a concrete pair inside a
concrete list, together with the evaluated example. -/
theorem C3_witness :
    keyLE strLe (fun i => i.name) albumA albumB ∧
    List.Sublist [albumA, albumB] [albumA, albumNoName, albumB] ∧
    List.Sublist [albumA, albumB] (sortByName [albumA, albumNoName, albumB]) ∧
    sortByName [albumA, albumNoName, albumB] = [albumA, albumB, albumNoName] := by
  have h1 : keyLE strLe (fun i => i.name) albumA albumB := by decide
  have h2 : List.Sublist [albumA, albumB] [albumA, albumNoName, albumB] :=
    List.Sublist.cons₂ albumA (List.Sublist.cons albumNoName (List.Sublist.refl [albumB]))
  exact ⟨h1, h2, (C3_sort_policy.1 [albumA, albumNoName, albumB]).2.2.2.2 albumA albumB h1 h2,
    rfl⟩

/-- Counterexample for C4: browsing the fixture series yields its season
child, but that child node's own media class is `TvShow`, not `Season` —
the source's `_build_season` constructs the node with
`MediaClass.TV_SHOW`. -/
theorem C4_counterexample :
    build_series guessTypeStd tc series1 true = .ok seriesNode ∧
    seriesNode.children = some [seasonChild] ∧
    seasonChild.media_class ≠ MediaClass.season ∧
    seasonChild.media_class = MediaClass.tvShow :=
  ⟨rfl, rfl, by decide, rfl⟩

/-- C4 (amended): for a Series parent the children fetched are Season items
and the series node's children media class is `Season`, but each child node
itself carries media class `TvShow` (not `Season`). -/
theorem C4_series_children (guess : String → Option String) (c : Client) (series : Item)
    (node : BMS) (h : build_series guess c series true = .ok node) :
    node.children_media_class = some MediaClass.season ∧
    ∃ ns, node.children = some ns ∧
      ns.length = (get_children c series.id ITEM_TYPE_SEASON).length ∧
      ∀ ch ∈ ns, ch.media_class = .tvShow ∧ ch.can_play = false ∧ ch.can_expand = true := by
  cases hs : series.name with
  | none => simp [build_series, hs] at h
  | some nm =>
    simp only [build_series, hs, if_true] at h
    cases hb : build_seasons guess c series.id with
    | error e => rw [hb] at h; simp at h
    | ok ns =>
      rw [hb] at h
      simp only [Except.ok.injEq] at h
      subst h
      refine ⟨rfl, ns, rfl, ?_, ?_⟩
      · unfold build_seasons at hb
        rw [buildList_ok_length _ _ _ hb]
        exact (sortItems_perm _ _ _).length_eq
      · intro ch hch
        unfold build_seasons at hb
        rcases buildList_ok_forall _ _ _ hb ch hch with ⟨i, _, hfi⟩
        exact build_season_flat_ok guess c i ch hfi

/-- Witness for C4's amended theorem at the concrete fixture series. -/
theorem C4_witness :
    build_series guessTypeStd tc series1 true = .ok seriesNode ∧
    seriesNode.children_media_class = some MediaClass.season ∧
    seasonChild.media_class = MediaClass.tvShow :=
  ⟨rfl, (C4_series_children guessTypeStd tc series1 seriesNode rfl).1, rfl⟩

/-- C9: under the browse-time precondition that the fetched item has a
derivable MIME type, resolve returns the stream URL paired with that
non-none MIME type and the internal assertion holds; when the precondition
is violated (and the stream URL itself resolves), resolve fails at the
assertion, not through a handled error path. -/
theorem C9_resolve_assertion (guess : String → Option String) (c : Client) (ident : String)
    (item : Item) (url : String) (hget : c.get_item ident = some item)
    (hurl : get_stream_url c item = .ok url) :
    (∀ mt, media_mime_type guess item = some mt →
        async_resolve_media guess (some c) ident = .ok (url, mt)) ∧
    (media_mime_type guess item = none →
        async_resolve_media guess (some c) ident = .error .assertionError) := by
  constructor
  · intro mt hmt
    simp [async_resolve_media, hget, hurl, hmt]
  · intro hmt
    simp [async_resolve_media, hget, hurl, hmt]

/-- Witness for C9: the audio fixture resolves to its audio stream URL and
MIME type; the mime-less fixture fails at the assertion. -/
theorem C9_witness :
    tc.get_item "t1" = some track1 ∧
    get_stream_url tc track1 = .ok "http://srv/Audio/t1/stream" ∧
    media_mime_type guessTypeStd track1 = some "audio/mpeg" ∧
    async_resolve_media guessTypeStd (some tc) "t1" =
      .ok ("http://srv/Audio/t1/stream", "audio/mpeg") :=
  ⟨rfl, rfl, rfl,
   (C9_resolve_assertion guessTypeStd tc "t1" track1 "http://srv/Audio/t1/stream"
     rfl rfl).1 "audio/mpeg" rfl⟩

/-- C7: the root browse node has no identifier, is not playable, is
expandable, has Directory media class and Directory children media class,
and holds exactly one child per media folder whose collection type is in
the supported set — folders with unsupported or missing collection types
are absent. -/
theorem C7_root_browse (guess : String → Option String) (c : Client) (node : BMS)
    (h : build_libraries guess c = .ok node) :
    node.identifier = none ∧ node.can_play = false ∧ node.can_expand = true ∧
    node.media_class = .directory ∧ node.children_media_class = some .directory ∧
    (∀ lib ∈ c.media_folders, (lib ∈ get_libraries c ↔
        ∃ t, lib.collectionType = some t ∧ t ∈ SUPPORTED_COLLECTION_TYPES)) ∧
    ∃ ns, node.children = some ns ∧ ns.length = (get_libraries c).length ∧
      ∀ ch ∈ ns, ∃ lib ∈ get_libraries c, build_library guess c lib false = .ok ch := by
  unfold build_libraries at h
  cases hb : buildList (fun l => build_library guess c l false) (get_libraries c) with
  | error e => rw [hb] at h; simp at h
  | ok ns =>
    rw [hb] at h
    simp only [Except.ok.injEq] at h
    subst h
    refine ⟨rfl, rfl, rfl, rfl, rfl, ?_, ns, rfl, buildList_ok_length _ _ _ hb,
      buildList_ok_forall _ _ _ hb⟩
    intro lib hlib
    unfold get_libraries
    rw [List.mem_filter]
    cases hct : lib.collectionType with
    | none => simp [hlib, hct]
    | some t => simp [hlib, hct]

/-- Witness for C7 at the fixture client: three supported libraries are
kept, the unsupported and key-less folders are dropped. -/
theorem C7_witness :
    build_libraries guessTypeStd tc = .ok rootNode ∧
    rootNode.identifier = none ∧ rootNode.can_play = false ∧ rootNode.can_expand = true ∧
    rootNode.media_class = MediaClass.directory ∧
    get_libraries tc = [libMusic, libMovies, libShows] ∧
    libBox ∈ tc.media_folders ∧ libBox ∉ get_libraries tc := by
  have h := C7_root_browse guessTypeStd tc rootNode rfl
  refine ⟨rfl, h.1, h.2.1, h.2.2.1, h.2.2.2.1, rfl, by decide, ?_⟩
  intro hmem
  rcases (h.2.2.2.2.2.1 libBox (by decide)).mp hmem with ⟨t, ht, hts⟩
  have hbx : libBox.collectionType = some "boxsets" := rfl
  rw [hbx] at ht
  injection ht with ht2
  subst ht2
  simp [SUPPORTED_COLLECTION_TYPES, COLLECTION_TYPE_MUSIC, COLLECTION_TYPE_MOVIES,
    COLLECTION_TYPE_TVSHOWS] at hts

/-- C8: browsing a music library whose fetched artist list is empty falls
back to fetching albums directly — the node's children media class is
`Album` and its children are Album nodes; with at least one artist the
children media class is `Artist` and the children are Artist nodes. -/
theorem C8_music_fallback (guess : String → Option String) (c : Client) (lib : Item)
    (node : BMS) :
    (get_children c lib.id ITEM_TYPE_ARTIST = [] →
        build_music_library guess c lib true = .ok node →
        node.children_media_class = some MediaClass.album ∧
        ∃ ns, node.children = some ns ∧
          ns.length = (get_children c lib.id ITEM_TYPE_ALBUM).length ∧
          ∀ ch ∈ ns, ch.media_class = .album) ∧
    (get_children c lib.id ITEM_TYPE_ARTIST ≠ [] →
        build_music_library guess c lib true = .ok node →
        node.children_media_class = some MediaClass.artist ∧
        ∃ ns, node.children = some ns ∧
          ns.length = (get_children c lib.id ITEM_TYPE_ARTIST).length ∧
          ∀ ch ∈ ns, ch.media_class = .artist) := by
  constructor
  · intro h0 h
    cases hn : lib.name with
    | none => simp [build_music_library, hn] at h
    | some nm =>
      have hart : build_artists guess c lib.id = .ok [] := by
        unfold build_artists
        rw [h0]
        rfl
      simp only [build_music_library, hn, if_true, hart, List.isEmpty_nil] at h
      cases halb : build_albums guess c lib.id with
      | error e => rw [halb] at h; simp at h
      | ok albums =>
        rw [halb] at h
        simp only [Except.ok.injEq] at h
        subst h
        refine ⟨rfl, albums, rfl, ?_, ?_⟩
        · unfold build_albums at halb
          rw [buildList_ok_length _ _ _ halb]
          exact (sortItems_perm _ _ _).length_eq
        · intro ch hch
          unfold build_albums at halb
          rcases buildList_ok_forall _ _ _ halb ch hch with ⟨i, _, hfi⟩
          exact (build_album_flat_ok guess c i ch hfi).1
  · intro hne h
    cases hn : lib.name with
    | none => simp [build_music_library, hn] at h
    | some nm =>
      simp only [build_music_library, hn, if_true] at h
      cases hart : build_artists guess c lib.id with
      | error e => rw [hart] at h; simp at h
      | ok artists =>
        rw [hart] at h
        have hlen : artists.length = (get_children c lib.id ITEM_TYPE_ARTIST).length := by
          unfold build_artists at hart
          rw [buildList_ok_length _ _ _ hart]
          exact (sortItems_perm _ _ _).length_eq
        have hAe : artists.isEmpty = false := by
          cases hAs : artists with
          | nil =>
            rw [hAs] at hlen
            exact absurd (List.length_eq_zero.mp hlen.symm) hne
          | cons _ _ => rfl
        simp only [hAe, Bool.false_eq_true, if_false] at h
        simp only [Except.ok.injEq] at h
        subst h
        refine ⟨rfl, artists, rfl, hlen, ?_⟩
        intro ch hch
        unfold build_artists at hart
        rcases buildList_ok_forall _ _ _ hart ch hch with ⟨i, _, hfi⟩
        exact (build_artist_flat_ok guess c i ch hfi).1

/-- Witness for C8: the fixture music library with zero artists and one
album browses to an Album-classed children list holding the album node. -/
theorem C8_witness :
    get_children tc "libm0" ITEM_TYPE_ARTIST = [] ∧
    get_children tc "libm0" ITEM_TYPE_ALBUM = [album1] ∧
    build_music_library guessTypeStd tc libMusic0 true = .ok musicNode0 ∧
    musicNode0.children_media_class = some MediaClass.album ∧
    albumChild.media_class = MediaClass.album := by
  have h := (C8_music_fallback guessTypeStd tc libMusic0 musicNode0).1 rfl rfl
  exact ⟨rfl, rfl, rfl, h.1, rfl⟩

/-- Counterexample for C10: the fixture season's fetched episode list holds
an item without a `Name` key, yet building the list succeeds — the unnamed
item also lacks a derivable MIME type, so it is filtered out before the
constructor's direct `Name` indexing runs, and a list without it is
returned instead of a KeyError. -/
theorem C10_counterexample :
    get_children tc "sn1" ITEM_TYPE_EPISODE = [episode1, episodeNoName] ∧
    episodeNoName.name = none ∧
    build_episodes guessTypeStd tc "sn1" = .ok [episodeNode1] :=
  ⟨rfl, rfl, rfl⟩

/-- C10 (amended): every node constructor reads `Name` by direct indexing,
so a children list whose fetched items include an unnamed one fails with
KeyError and no partial list is returned — unconditionally for non-leaf
lists (artists, albums, series, seasons), and for leaf lists (tracks,
movies, episodes) provided the unnamed item has a derivable MIME type;
an unnamed leaf item without one is filtered out before construction. -/
theorem C10_unnamed_items (guess : String → Option String) (c : Client) (pid : String) :
    ((∃ a ∈ get_children c pid ITEM_TYPE_ARTIST, a.name = none) →
        build_artists guess c pid = .error (.keyError "Name")) ∧
    ((∃ a ∈ get_children c pid ITEM_TYPE_ALBUM, a.name = none) →
        build_albums guess c pid = .error (.keyError "Name")) ∧
    ((∃ s ∈ get_children c pid ITEM_TYPE_SERIES, s.name = none) →
        build_tvshow guess c pid = .error (.keyError "Name")) ∧
    ((∃ s ∈ get_children c pid ITEM_TYPE_SEASON, s.name = none) →
        build_seasons guess c pid = .error (.keyError "Name")) ∧
    ((∃ t ∈ get_children c pid ITEM_TYPE_AUDIO, t.name = none ∧
          (media_mime_type guess t).isSome = true) →
        build_tracks guess c pid = .error (.keyError "Name")) ∧
    ((∃ t ∈ get_children c pid ITEM_TYPE_MOVIE, t.name = none ∧
          (media_mime_type guess t).isSome = true) →
        build_movies guess c pid = .error (.keyError "Name")) ∧
    ((∃ t ∈ get_children c pid ITEM_TYPE_EPISODE, t.name = none ∧
          (media_mime_type guess t).isSome = true) →
        build_episodes guess c pid = .error (.keyError "Name")) := by
  refine ⟨?_, ?_, ?_, ?_, ?_, ?_, ?_⟩
  · rintro ⟨a, ha, hname⟩
    unfold build_artists
    apply buildList_error _ _ (fun i e he => build_artist_flat_error guess c i e he)
    exact ⟨a, ((sortItems_perm _ _ _).mem_iff).mpr ha, .keyError "Name",
      by simp [build_artist, hname]⟩
  · rintro ⟨a, ha, hname⟩
    unfold build_albums
    apply buildList_error _ _ (fun i e he => build_album_flat_error guess c i e he)
    exact ⟨a, ((sortItems_perm _ _ _).mem_iff).mpr ha, .keyError "Name",
      by simp [build_album, hname]⟩
  · rintro ⟨a, ha, hname⟩
    unfold build_tvshow
    apply buildList_error _ _ (fun i e he => build_series_flat_error guess c i e he)
    exact ⟨a, ((sortItems_perm _ _ _).mem_iff).mpr ha, .keyError "Name",
      by simp [build_series, hname]⟩
  · rintro ⟨a, ha, hname⟩
    unfold build_seasons
    apply buildList_error _ _ (fun i e he => build_season_flat_error guess c i e he)
    exact ⟨a, ((sortItems_perm _ _ _).mem_iff).mpr ha, .keyError "Name",
      by simp [build_season, hname]⟩
  · rintro ⟨t, ht, hname, hsome⟩
    unfold build_tracks
    apply buildList_error _ _ (fun i e he => build_track_error guess c i e he)
    exact ⟨t, List.mem_filter.mpr ⟨((sortItems_perm _ _ _).mem_iff).mpr ht, hsome⟩,
      .keyError "Name", by simp [build_track, hname]⟩
  · rintro ⟨t, ht, hname, hsome⟩
    unfold build_movies
    apply buildList_error _ _ (fun i e he => build_movie_error guess c i e he)
    exact ⟨t, List.mem_filter.mpr ⟨((sortItems_perm _ _ _).mem_iff).mpr ht, hsome⟩,
      .keyError "Name", by simp [build_movie, hname]⟩
  · rintro ⟨t, ht, hname, hsome⟩
    unfold build_episodes
    apply buildList_error _ _ (fun i e he => build_episode_error guess c i e he)
    exact ⟨t, List.mem_filter.mpr ⟨((sortItems_perm _ _ _).mem_iff).mpr ht, hsome⟩,
      .keyError "Name", by simp [build_episode, hname]⟩

/-- Witness for C10's amended theorem: the fixture music library's artist
list holds an unnamed artist, so building the artist list fails with the
`Name` KeyError. -/
theorem C10_witness :
    get_children tc "libm" ITEM_TYPE_ARTIST = [artist1, artistNoName] ∧
    artistNoName.name = none ∧
    build_artists guessTypeStd tc "libm" = .error (.keyError "Name") :=
  ⟨rfl, rfl,
   (C10_unnamed_items guessTypeStd tc "libm").1 ⟨artistNoName, by decide, rfl⟩⟩

end JellyfinMS
